import Mathlib

/-!
Shallow embedding of `src/PDFGUI1.py` (PDF Text Extractor GUI).

The program's logic lives in three places:
* `DragDropArea.dropEvent` (lines 49-57): filters the dropped paths to those
  ending case-insensitively in `.pdf`, warns once when none remain, and
  otherwise feeds each surviving path to `MainWindow.add_file`;
* `MainWindow.add_file` (lines 97-130): opens the file, builds a `PdfReader`,
  concatenates `page.extract_text() + "\n"` over pages `0..len(pages)-1`,
  and on success appends one display container to `text_layout` and one
  `(file_path, text)` pair to `files_data`; any exception is caught and shown
  as a critical message box, leaving all state untouched;
* `MainWindow.clear_all` (lines 132-140): removes the layout's widgets by
  index from `count-1` down to `0` and clears `files_data`.

The external PDF library is a black box: we model the file system as a map
from paths to either a well-formed PDF (a list of pages, each page either
extracting to a string or raising) or an unreadable file, `none` meaning the
`open` itself raises.
-/

namespace PDFGUI

/-- What the extraction library sees behind a path: a well-formed PDF whose
pages each either extract to `some` text or raise on `extract_text` (`none`),
or a file on which `PdfReader` / reading raises with the given message. -/
inductive FileContent : Type
  | pdf (pages : List (Option String))
  | unreadable (message : String)
deriving DecidableEq

/-- The file system supplying `open(file_path, 'rb')`: `none` means the open
itself raises (e.g. no such file). -/
def FS : Type := String → Option FileContent

/-- The error surfaced by the `except` branch of `add_file` (the
`QMessageBox.critical` call): the offending path and a human-readable
message. -/
structure IntakeError where
  path : String
  message : String
deriving DecidableEq

/-- The state of `MainWindow` relevant to the claims: `files_data` (the
session, line 68/127/140) and the per-document display containers added to
`text_layout` (lines 110-126, 136-139), each holding the label text and the
text shown in its `QTextEdit`. -/
structure MainWindow where
  files_data : List (String × String)
  containers : List (String × String)
deriving DecidableEq

/-- `MainWindow.__init__`: `files_data = []` and an empty text layout. -/
def initialWindow : MainWindow := ⟨[], []⟩

/-- `url.toLocalFile().lower().endswith('.pdf')` (line 51): lowercase the
path (`Char.toLower`, which lowercases exactly the basic latin letters — the
only characters whose lowercasing can matter for matching `.pdf`) and test
that its last four characters are `.pdf`. Stated over the character list so
it evaluates by kernel reduction. -/
def isPdfPath (p : String) : Bool :=
  (p.data.map Char.toLower).reverse.take 4 == ['f', 'd', 'p', '.']

/-- Python's `split("/")` on a character list: always returns a nonempty list
of the `/`-separated pieces. -/
def splitSlash : List Char → List (List Char)
  | [] => [[]]
  | c :: rest =>
      match splitSlash rest with
      | [] => [[]]
      | s :: ss => if c = '/' then [] :: s :: ss else (c :: s) :: ss

/-- `file_path.split("/")[-1]` (line 115). -/
def fileName (p : String) : String := String.mk ((splitSlash p.data).getLastD [])

/-- Lines 102-103: `open(file_path, 'rb')` followed by
`PyPDF2.PdfReader(file)`; either raises, modelled as `Except.error`. -/
def openPdf (fs : FS) (p : String) : Except String (List (Option String)) :=
  match fs p with
  | none => Except.error ("No such file or directory: " ++ p)
  | some (FileContent.unreadable m) => Except.error m
  | some (FileContent.pdf pages) => Except.ok pages

/-- Lines 104-107: `text = ""` then
`for page_num in range(len(reader.pages)): text += page.extract_text() + "\n"`;
a page whose `extract_text` raises aborts the loop with the exception, and the
text accumulated so far is discarded by the caller's `except`. -/
def extractPages (acc : String) : List (Option String) → Except String String
  | [] => Except.ok acc
  | none :: _ => Except.error "extract_text raised"
  | some t :: rest => extractPages (acc ++ (t ++ "\n")) rest

/-- The whole `try` body up to line 107: open, build the reader, extract and
concatenate every page's text. -/
def processPath (fs : FS) (p : String) : Except String String :=
  match openPdf fs p with
  | Except.error m => Except.error m
  | Except.ok pages => extractPages "" pages

/-- `MainWindow.add_file` (lines 97-130): on success one container is added
to the layout (lines 110-126) and `(file_path, text)` is appended to
`files_data` (line 127); on any exception the state is untouched and a
critical message box reports `"Failed to read PDF file.\n" + e` (line 130). -/
def add_file (fs : FS) (w : MainWindow) (file_path : String) :
    MainWindow × Option IntakeError :=
  match processPath fs file_path with
  | Except.error e =>
      (w, some ⟨file_path, "Failed to read PDF file.\n" ++ e⟩)
  | Except.ok text =>
      ({ files_data := w.files_data ++ [(file_path, text)],
         containers := w.containers ++ [("File: " ++ fileName file_path, text)] },
       none)

/-- Lines 55-56: `for file_path in pdf_files: self.parent().add_file(file_path)`,
collecting the error boxes shown along the way in order. -/
def processAll (fs : FS) (w : MainWindow) :
    List String → MainWindow × List IntakeError
  | [] => (w, [])
  | p :: rest =>
      let r := add_file fs w p
      let r2 := processAll fs r.1 rest
      (r2.1, r.2.toList ++ r2.2)

/-- The text of the single warning box of line 53. -/
def warningText : String := "Please drop only PDF files."

/-- `DragDropArea.dropEvent` (lines 49-57): keep only paths ending
case-insensitively in `.pdf`; if none remain, show one warning box and
process nothing; otherwise run `add_file` on each surviving path in order.
The result is the new window state, the error boxes shown, and the warning
box if one was shown. -/
def dropEvent (fs : FS) (w : MainWindow) (urls : List String) :
    MainWindow × List IntakeError × Option String :=
  let pdf_files := urls.filter isPdfPath
  if pdf_files.isEmpty then
    (w, [], some warningText)
  else
    let r := processAll fs w pdf_files
    (r.1, r.2, none)

/-- Removing the widget at index `i` from the layout
(`widget.setParent(None)`, line 139). -/
def removeWidgetAt (l : List (String × String)) (i : Nat) : List (String × String) :=
  l.take i ++ l.drop (i + 1)

/-- Lines 136-139: `for i in reversed(range(self.text_layout.count()))`,
removing the widget at index `i` at each step; the call
`clearWidgets l n` performs the iterations for `i = n-1` down to `0`. -/
def clearWidgets (l : List (String × String)) : Nat → List (String × String)
  | 0 => l
  | n + 1 => clearWidgets (removeWidgetAt l n) n

/-- `MainWindow.clear_all` (lines 132-140). -/
def clear_all (w : MainWindow) : MainWindow :=
  { files_data := [],
    containers := clearWidgets w.containers w.containers.length }

/-- The user-triggerable operations of the window: dropping a batch of paths
(`dropEvent`) and pressing the Clear All button (`clear_all`). `add_file` is
only ever invoked from inside `dropEvent` (line 56). -/
inductive Op : Type
  | drop (urls : List String)
  | clear

/-- One user event applied to the window. -/
def step (fs : FS) (w : MainWindow) :
    Op → MainWindow × List IntakeError × Option String
  | Op.drop urls => dropEvent fs w urls
  | Op.clear => (clear_all w, [], none)

/-- A run of the application: the window state after a sequence of user
events starting from `w`. -/
def run (fs : FS) (w : MainWindow) : List Op → MainWindow
  | [] => w
  | op :: rest => run fs (step fs w op).1 rest

/-- Modelled from the spec (sec. 8): "the resulting Document's text equals
the newline-joined concatenation of each page's extracted text, in page
order, with a trailing newline after the final page". -/
def specText (pages : List String) : String :=
  String.join (pages.map (fun t => t ++ "\n"))

/-- A concrete file system used by the witnesses: one two-page PDF, one
corrupt file, one one-page PDF, one zero-page PDF. -/
def fsDemo : FS := fun p =>
  if p = "a.pdf" then some (FileContent.pdf [some "Hello", some "World"])
  else if p = "bad.pdf" then some (FileContent.unreadable "EOF marker not found")
  else if p = "b.pdf" then some (FileContent.pdf [some "Bye"])
  else if p = "zero.pdf" then some (FileContent.pdf [])
  else none

/-- A second file system that differs from `fsDemo` only at the non-PDF path
`notes.txt`. -/
def fsDemo2 : FS := fun p =>
  if p = "notes.txt" then some (FileContent.unreadable "not a pdf") else fsDemo p

/-- A session entry is a legitimate intake result: its path passed the
case-insensitive `.pdf` validation and its whole extraction succeeded,
yielding exactly the stored text. -/
def intakeOk (fs : FS) (e : String × String) : Prop :=
  isPdfPath e.1 = true ∧ processPath fs e.1 = Except.ok e.2

/-- The display container that `add_file` builds for a session entry
(lines 110-126): the label `File: <basename>` and the extracted text. -/
def displayOf (e : String × String) : String × String :=
  ("File: " ++ fileName e.1, e.2)

/-! ### Helper lemmas -/

theorem join_cons (a : String) (l : List String) :
    String.join (a :: l) = a ++ String.join l :=
  String.ext (by simp)

theorem specText_cons (t : String) (ps : List String) :
    specText (t :: ps) = (t ++ "\n") ++ specText ps := by
  simp only [specText, List.map_cons]
  exact join_cons _ _

theorem extractPages_map_some (pages : List String) (acc : String) :
    extractPages acc (pages.map some) = Except.ok (acc ++ specText pages) := by
  induction pages generalizing acc with
  | nil => simp [extractPages, specText, String.join]
  | cons t ps ih =>
      simp only [List.map_cons, extractPages, ih, specText_cons,
        String.append_assoc]

theorem clearWidgets_emp (n : Nat) :
    ∀ l : List (String × String), l.length = n → clearWidgets l n = [] := by
  induction n with
  | zero =>
      intro l h
      rw [List.length_eq_zero] at h
      simp [clearWidgets, h]
  | succ n ih =>
      intro l h
      show clearWidgets (removeWidgetAt l n) n = []
      apply ih
      have hd : l.drop (n + 1) = [] := by
        rw [← h]; exact List.drop_length l
      have ht : (l.take n).length = n := by
        rw [List.length_take]
        omega
      simp [removeWidgetAt, hd, ht]

theorem clear_all_eq (w : MainWindow) : clear_all w = ⟨[], []⟩ := by
  simp only [clear_all]
  rw [clearWidgets_emp w.containers.length w.containers rfl]

theorem add_file_congr (fs fs2 : FS) (w : MainWindow) (p : String)
    (h : fs p = fs2 p) : add_file fs w p = add_file fs2 w p := by
  simp [add_file, processPath, openPdf, h]

theorem processAll_congr (fs fs2 : FS) (ps : List String)
    (h : ∀ q ∈ ps, fs q = fs2 q) :
    ∀ w : MainWindow, processAll fs w ps = processAll fs2 w ps := by
  induction ps with
  | nil => intro w; rfl
  | cons p rest ih =>
      intro w
      have h1 : fs p = fs2 p := h p (List.mem_cons_self p rest)
      have h2 : ∀ q ∈ rest, fs q = fs2 q := fun q hq => h q (List.mem_cons_of_mem p hq)
      simp only [processAll, add_file_congr fs fs2 w p h1, ih h2]

theorem add_file_intakeOk (fs : FS) (w : MainWindow) (p : String)
    (hw : ∀ e ∈ w.files_data, intakeOk fs e) (hp : isPdfPath p = true) :
    ∀ e ∈ ((add_file fs w p).1).files_data, intakeOk fs e := by
  cases hpp : processPath fs p with
  | error m => simpa [add_file, hpp] using hw
  | ok t =>
      intro e he
      simp only [add_file, hpp] at he
      rcases List.mem_append.mp he with h1 | h2
      · exact hw e h1
      · have he2 : e = (p, t) := by simpa using h2
        subst he2
        exact ⟨hp, hpp⟩

theorem processAll_intakeOk (fs : FS) (ps : List String)
    (hps : ∀ q ∈ ps, isPdfPath q = true) :
    ∀ w : MainWindow, (∀ e ∈ w.files_data, intakeOk fs e) →
      ∀ e ∈ ((processAll fs w ps).1).files_data, intakeOk fs e := by
  induction ps with
  | nil => intro w hw; simpa [processAll] using hw
  | cons p rest ih =>
      intro w hw
      simp only [processAll]
      exact ih (fun q hq => hps q (List.mem_cons_of_mem p hq)) _
        (add_file_intakeOk fs w p hw (hps p (List.mem_cons_self p rest)))

theorem dropEvent_intakeOk (fs : FS) (w : MainWindow) (urls : List String)
    (hw : ∀ e ∈ w.files_data, intakeOk fs e) :
    ∀ e ∈ ((dropEvent fs w urls).1).files_data, intakeOk fs e := by
  by_cases hf : (urls.filter isPdfPath).isEmpty = true
  · simpa [dropEvent, hf] using hw
  · simp only [dropEvent, hf, if_false]
    exact processAll_intakeOk fs (urls.filter isPdfPath)
      (fun q hq => (List.mem_filter.mp hq).2) w hw

theorem step_intakeOk (fs : FS) (w : MainWindow) (op : Op)
    (hw : ∀ e ∈ w.files_data, intakeOk fs e) :
    ∀ e ∈ ((step fs w op).1).files_data, intakeOk fs e := by
  cases op with
  | drop urls => exact dropEvent_intakeOk fs w urls hw
  | clear => simp [step, clear_all_eq]

theorem run_intakeOk (fs : FS) (ops : List Op) :
    ∀ w : MainWindow, (∀ e ∈ w.files_data, intakeOk fs e) →
      ∀ e ∈ (run fs w ops).files_data, intakeOk fs e := by
  induction ops with
  | nil => intro w hw; simpa [run] using hw
  | cons op rest ih =>
      intro w hw
      simp only [run]
      exact ih _ (step_intakeOk fs w op hw)

theorem add_file_synced (fs : FS) (w : MainWindow) (p : String)
    (hw : w.containers = w.files_data.map displayOf) :
    ((add_file fs w p).1).containers = ((add_file fs w p).1).files_data.map displayOf := by
  cases hpp : processPath fs p with
  | error m => simpa [add_file, hpp] using hw
  | ok t => simp [add_file, hpp, hw, displayOf]

theorem processAll_synced (fs : FS) (ps : List String) :
    ∀ w : MainWindow, w.containers = w.files_data.map displayOf →
      ((processAll fs w ps).1).containers = ((processAll fs w ps).1).files_data.map displayOf := by
  induction ps with
  | nil => intro w hw; simpa [processAll] using hw
  | cons p rest ih =>
      intro w hw
      simp only [processAll]
      exact ih _ (add_file_synced fs w p hw)

theorem dropEvent_synced (fs : FS) (w : MainWindow) (urls : List String)
    (hw : w.containers = w.files_data.map displayOf) :
    ((dropEvent fs w urls).1).containers = ((dropEvent fs w urls).1).files_data.map displayOf := by
  by_cases hf : (urls.filter isPdfPath).isEmpty = true
  · simpa [dropEvent, hf] using hw
  · simp only [dropEvent, hf, if_false]
    exact processAll_synced fs (urls.filter isPdfPath) w hw

theorem step_synced (fs : FS) (w : MainWindow) (op : Op)
    (hw : w.containers = w.files_data.map displayOf) :
    ((step fs w op).1).containers = ((step fs w op).1).files_data.map displayOf := by
  cases op with
  | drop urls => exact dropEvent_synced fs w urls hw
  | clear => simp [step, clear_all_eq]

theorem run_synced (fs : FS) (ops : List Op) :
    ∀ w : MainWindow, w.containers = w.files_data.map displayOf →
      (run fs w ops).containers = (run fs w ops).files_data.map displayOf := by
  induction ops with
  | nil => intro w hw; simpa [run] using hw
  | cons op rest ih =>
      intro w hw
      simp only [run]
      exact ih _ (step_synced fs w op hw)

/-! ### Claims -/

/-- C1: for a well-formed PDF all of whose pages extract, `add_file` succeeds
and the stored Document text equals the concatenation, in page order from
index 0 to N-1, of each page's extracted text each followed by a single
newline — so the final page's text is followed by a trailing newline
(the spec-side `specText`). -/
theorem c1_process_text_newline_joined (fs : FS) (w : MainWindow) (p : String)
    (pages : List String)
    (h : fs p = some (FileContent.pdf (pages.map some))) :
    add_file fs w p =
      ({ files_data := w.files_data ++ [(p, specText pages)],
         containers := w.containers ++
           [("File: " ++ fileName p, specText pages)] },
       none) := by
  have hp : processPath fs p = Except.ok (specText pages) := by
    simp [processPath, openPdf, h, extractPages_map_some]
  simp [add_file, hp]

/-- Witness for C1 at a two-page PDF. -/
theorem c1_witness :
    add_file fsDemo initialWindow "a.pdf" =
      ({ files_data := initialWindow.files_data ++
           [("a.pdf", specText ["Hello", "World"])],
         containers := initialWindow.containers ++
           [("File: " ++ fileName "a.pdf", specText ["Hello", "World"])] },
       none) :=
  c1_process_text_newline_joined fsDemo initialWindow "a.pdf"
    ["Hello", "World"] (by decide)

/-- C2: a dropped batch never reads a path that does not end in `.pdf`
case-insensitively: the outcome of `dropEvent` is unchanged under any change
of the file system at non-PDF paths, so no open of such a file occurs. -/
theorem c2_nonpdf_paths_never_read (fs fs2 : FS) (w : MainWindow)
    (urls : List String) (h : ∀ q, isPdfPath q = true → fs q = fs2 q) :
    dropEvent fs w urls = dropEvent fs2 w urls := by
  by_cases hf : (urls.filter isPdfPath).isEmpty = true
  · simp [dropEvent, hf]
  · simp only [dropEvent, hf, if_false]
    rw [processAll_congr fs fs2 (urls.filter isPdfPath)
      (fun q hq => h q (List.mem_filter.mp hq).2) w]

/-- Witness for C2: `fsDemo` and `fsDemo2` differ exactly at `notes.txt`,
yet dropping a batch containing `notes.txt` gives identical results. -/
theorem c2_witness :
    dropEvent fsDemo initialWindow ["notes.txt", "a.pdf"] =
      dropEvent fsDemo2 initialWindow ["notes.txt", "a.pdf"] :=
  c2_nonpdf_paths_never_read fsDemo fsDemo2 initialWindow ["notes.txt", "a.pdf"]
    (by
      intro q hq
      by_cases h : q = "notes.txt"
      · subst h; exact absurd hq (by decide)
      · show fsDemo q = fsDemo2 q
        unfold fsDemo2
        rw [if_neg h])

/-- C3: when opening or extracting fails, `add_file` reports a single error
carrying a human-readable message for that path and leaves the whole window
state — in particular the session `files_data` — exactly as it was. -/
theorem c3_error_atomic (fs : FS) (w : MainWindow) (p m : String)
    (h : processPath fs p = Except.error m) :
    add_file fs w p = (w, some ⟨p, "Failed to read PDF file.\n" ++ m⟩) := by
  simp [add_file, h]

/-- Witness for C3 at a corrupt `.pdf` file. -/
theorem c3_witness :
    add_file fsDemo initialWindow "bad.pdf" =
      (initialWindow,
       some ⟨"bad.pdf", "Failed to read PDF file.\n" ++ "EOF marker not found"⟩) :=
  c3_error_atomic fsDemo initialWindow "bad.pdf" "EOF marker not found" rfl

/-- C4: invariant over every reachable window state (any sequence of batch
drops — which run `add_file` on each validated path — and clears): each
session entry's path passed the case-insensitive `.pdf` validation and its
extraction succeeded in full, producing exactly the stored text; no
partially-extracted Document is ever present. -/
theorem c4_session_invariant (fs : FS) (ops : List Op) (e : String × String)
    (he : e ∈ (run fs initialWindow ops).files_data) :
    isPdfPath e.1 = true ∧ processPath fs e.1 = Except.ok e.2 :=
  run_intakeOk fs ops initialWindow
    (fun x hx => absurd hx (by simp [initialWindow])) e he

/-- Witness for C4: the entry left by dropping `a.pdf`. -/
theorem c4_witness :
    isPdfPath "a.pdf" = true ∧
      processPath fsDemo "a.pdf" = Except.ok "Hello\nWorld\n" :=
  c4_session_invariant fsDemo [Op.drop ["a.pdf"]] ("a.pdf", "Hello\nWorld\n")
    (by decide)

/-- C5: in the batch [a, bad, b] with a and b well-formed and bad corrupt,
processing yields exactly the two Documents for a and b in submission order
plus exactly one reported error for bad; the failure aborts nothing. -/
theorem c5_batch_failure_isolation (fs : FS) (w : MainWindow)
    (a bad b ta tb m : String)
    (hpa : isPdfPath a = true) (hpbad : isPdfPath bad = true)
    (hpb : isPdfPath b = true)
    (ha : processPath fs a = Except.ok ta)
    (hbad : processPath fs bad = Except.error m)
    (hb : processPath fs b = Except.ok tb) :
    (dropEvent fs w [a, bad, b]).1.files_data =
      w.files_data ++ [(a, ta), (b, tb)] ∧
    (dropEvent fs w [a, bad, b]).2.1 =
      [⟨bad, "Failed to read PDF file.\n" ++ m⟩] ∧
    (dropEvent fs w [a, bad, b]).2.2 = none := by
  have hfil : [a, bad, b].filter isPdfPath = [a, bad, b] := by
    simp [List.filter, hpa, hpbad, hpb]
  simp [dropEvent, hfil, processAll, add_file, ha, hbad, hb]

/-- Witness for C5 at the concrete batch of `fsDemo`. -/
theorem c5_witness :
    (dropEvent fsDemo initialWindow ["a.pdf", "bad.pdf", "b.pdf"]).1.files_data =
      initialWindow.files_data ++
        [("a.pdf", "Hello\nWorld\n"), ("b.pdf", "Bye\n")] ∧
    (dropEvent fsDemo initialWindow ["a.pdf", "bad.pdf", "b.pdf"]).2.1 =
      [⟨"bad.pdf", "Failed to read PDF file.\n" ++ "EOF marker not found"⟩] ∧
    (dropEvent fsDemo initialWindow ["a.pdf", "bad.pdf", "b.pdf"]).2.2 = none :=
  c5_batch_failure_isolation fsDemo initialWindow "a.pdf" "bad.pdf" "b.pdf"
    "Hello\nWorld\n" "Bye\n" "EOF marker not found"
    (by decide) (by decide) (by decide) rfl rfl rfl

/-- C6: `clear_all` leaves the session and the display empty, even though the
source removes the widgets one index at a time from the last down to the
first, and clearing again (in particular clearing an already-empty window)
changes nothing. -/
theorem c6_clear_empties_and_idempotent (w : MainWindow) :
    (clear_all w).files_data = [] ∧ (clear_all w).containers = [] ∧
      clear_all (clear_all w) = clear_all w := by
  simp [clear_all_eq]

/-- C7: a dropped batch is filtered to its case-insensitive `.pdf` paths:
when no PDF path is present the single warning is shown and nothing is
processed or changed; otherwise no warning is shown and the non-PDF paths
are silently dropped — the outcome is that of dropping the filtered batch. -/
theorem c7_batch_filter_and_single_warning (fs : FS) (w : MainWindow)
    (urls : List String) :
    (urls.filter isPdfPath = [] →
      dropEvent fs w urls = (w, [], some warningText)) ∧
    (urls.filter isPdfPath ≠ [] →
      (dropEvent fs w urls).2.2 = none ∧
      dropEvent fs w urls = dropEvent fs w (urls.filter isPdfPath)) := by
  constructor
  · intro h
    simp [dropEvent, h]
  · intro h
    have hne : (urls.filter isPdfPath).isEmpty = false := by
      cases hc : urls.filter isPdfPath with
      | nil => exact absurd hc h
      | cons x xs => rfl
    have hfil : (urls.filter isPdfPath).filter isPdfPath = urls.filter isPdfPath :=
      List.filter_eq_self.mpr (fun a ha => (List.mem_filter.mp ha).2)
    constructor
    · simp [dropEvent, hne]
    · simp [dropEvent, hne, hfil]

/-- Witness for C7: a batch with zero PDFs warns once and changes nothing. -/
theorem c7_witness :
    dropEvent fsDemo initialWindow ["notes.txt"] =
      (initialWindow, [], some warningText) :=
  (c7_batch_filter_and_single_warning fsDemo initialWindow ["notes.txt"]).1
    (by decide)

/-- C8: a well-formed PDF with zero pages is processed successfully and its
Document text is the empty string. -/
theorem c8_zero_page_pdf_empty_text (fs : FS) (w : MainWindow) (p : String)
    (h : fs p = some (FileContent.pdf [])) :
    add_file fs w p =
      ({ files_data := w.files_data ++ [(p, "")],
         containers := w.containers ++ [("File: " ++ fileName p, "")] },
       none) := by
  simp [add_file, processPath, openPdf, h, extractPages]

/-- Witness for C8 at a zero-page PDF. -/
theorem c8_witness :
    add_file fsDemo initialWindow "zero.pdf" =
      ({ files_data := initialWindow.files_data ++ [("zero.pdf", "")],
         containers := initialWindow.containers ++
           [("File: " ++ fileName "zero.pdf", "")] },
       none) :=
  c8_zero_page_pdf_empty_text fsDemo initialWindow "zero.pdf" (by decide)

/-- C9: a successful intake appends its Document at the end of the session,
and re-processing the same path appends a second, separate entry — no
deduplication by path, insertion order preserved. -/
theorem c9_append_order_no_dedup (fs : FS) (w : MainWindow) (p t : String)
    (h : processPath fs p = Except.ok t) :
    ((add_file fs w p).1).files_data = w.files_data ++ [(p, t)] ∧
    ((add_file fs (add_file fs w p).1 p).1).files_data =
      w.files_data ++ [(p, t), (p, t)] := by
  simp [add_file, h]

/-- Witness for C9: adding `b.pdf` twice yields two entries in order. -/
theorem c9_witness :
    ((add_file fsDemo initialWindow "b.pdf").1).files_data =
      initialWindow.files_data ++ [("b.pdf", "Bye\n")] ∧
    ((add_file fsDemo (add_file fsDemo initialWindow "b.pdf").1 "b.pdf").1).files_data =
      initialWindow.files_data ++ [("b.pdf", "Bye\n"), ("b.pdf", "Bye\n")] :=
  c9_append_order_no_dedup fsDemo initialWindow "b.pdf" "Bye\n" rfl

/-- C10: invariant over every reachable window state: the display containers
are exactly the session entries rendered by `displayOf` — each successful
intake adds one of each, each failure adds neither, and clearing removes all
of both — so display and session never diverge (in particular they always
have the same length). -/
theorem c10_display_matches_session (fs : FS) (ops : List Op) :
    (run fs initialWindow ops).containers =
      (run fs initialWindow ops).files_data.map displayOf :=
  run_synced fs ops initialWindow (by simp [initialWindow])

end PDFGUI
